import Mathlib

/-!
Verification development for the `project_minori-gin-deployment-repo` Go
service: a shallow embedding, in Lean 4, of the schedule-driven chat-room
reconciler (`manageChatRooms`), the CORS middleware, the startup environment
checks (`ensureEnvVariables`), the live-class route wiring
(`setupLiveClassRoutes`), and — modelled from the specification where the Go
source of the component is not part of the repository slice — the
direct-message store and the live-session presenter state machine.

Time is measured in integer minutes relative to an arbitrary origin, so
`now + 5` stands for Go's `now.Add(5 * time.Minute)` and Go's strict
`now.After(t)` becomes `t < now`.
-/

namespace Minori

/-! ### Decimal rendering of schedule ids

`manageChatRooms` computes `roomID := fmt.Sprintf("class_%d", schedule.ID)`.
`%d` on an unsigned integer prints the usual base-10 digits, most significant
first, with `0` printed as `"0"`.  We embed that rendering on `Nat` via
Mathlib's little-endian `Nat.digits`. -/

/-- Base-10 digits of `n`, most significant first, as characters. -/
def decChars (n : Nat) : List Char :=
  ((Nat.digits 10 n).reverse).map Nat.digitChar

/-- Decimal rendering of `n`, matching Go's `fmt.Sprintf("%d", n)` for an
unsigned integer: usual base-10 digits, and `0` renders as `"0"`. -/
def decRepr (n : Nat) : String :=
  if n = 0 then "0" else String.mk (decChars n)

/-- `fmt.Sprintf("class_%d", schedule.ID)` from `manageChatRooms`. -/
def roomID (n : Nat) : String :=
  "class_" ++ decRepr n

/-- Numeric value of a decimal digit character (inverse of `Nat.digitChar`
on digits below 10). -/
def charVal (c : Char) : Nat :=
  c.toNat - 48

/-- Parse a most-significant-first digit-character list back to a `Nat`. -/
def decParse (l : List Char) : Nat :=
  Nat.ofDigits 10 (l.reverse.map charVal)

theorem charVal_digitChar {d : Nat} (hd : d < 10) :
    charVal (Nat.digitChar d) = d := by
  interval_cases d <;> decide

theorem decParse_decChars (n : Nat) : decParse (decChars n) = n := by
  unfold decParse decChars
  simp only [List.map_map, List.map_reverse, List.reverse_reverse]
  have h : ∀ l : List Nat, (∀ d ∈ l, d < 10) →
      List.map (charVal ∘ Nat.digitChar) l = l := by
    intro l hl
    induction l with
    | nil => rfl
    | cons a t ih =>
      simp only [List.map_cons, Function.comp_apply]
      rw [charVal_digitChar (hl a (by simp)), ih (fun d hd => hl d (by simp [hd]))]
  rw [h _ (fun d hd => Nat.digits_lt_base (by norm_num) hd), Nat.ofDigits_digits]

theorem decParse_decRepr (n : Nat) : decParse (decRepr n).data = n := by
  unfold decRepr
  by_cases h : n = 0
  · subst h; decide
  · simp only [h, if_false]
    exact decParse_decChars n

/-! ### ScheduleReconciler: `manageChatRooms`

Source (`manageChatRooms`): every minute the tick runs

```
now := time.Now()
var schedules []models.ClassSchedule
db.Where("started_at <= ? AND started_at >= ?", now.Add(5*time.Minute), now).
  Or("ended_at <= ? AND ended_at >= ?", now, now.Add(-10*time.Minute)).Find(&schedules)
for _, schedule := range schedules {
  roomID := fmt.Sprintf("class_%d", schedule.ID)
  if now.After(schedule.EndedAt.Add(10 * time.Minute)) {
    chatManager.DeleteBroadcast(roomID)
  }
}
```

The loop body contains no room-creation call and no logging call, and the
error of `Find` is discarded (on a failed read the `schedules` slice stays
empty and the loop runs zero times). -/

/-- `models.ClassSchedule` as the reconciler reads it: `{ID, StartedAt, EndedAt}`,
times in minutes. -/
structure ClassSchedule where
  id : Nat
  startedAt : Int
  endedAt : Int
deriving DecidableEq

/-- Failure of the schedule read (`db. ... .Find` reporting an error). -/
inductive DBError where
  | readFailed
deriving DecidableEq

/-- The tick's SQL filter:
`started_at <= now+5 AND started_at >= now OR ended_at <= now AND ended_at >= now-10`. -/
def scheduleSelected (now : Int) (s : ClassSchedule) : Bool :=
  (s.startedAt ≤ now + 5 && now ≤ s.startedAt) ||
    (s.endedAt ≤ now && now - 10 ≤ s.endedAt)

/-- Externally observable effects of one `manageChatRooms` tick. -/
structure TickEffects where
  /-- `roomID`s passed to `chatManager.DeleteBroadcast` during the tick. -/
  deletedRooms : List String
  /-- `roomID`s for which any room-creation call is made during the tick. -/
  createdRooms : List String
  /-- Messages logged during the tick. -/
  logs : List String
  /-- Whether the tick panicked / crashed the process. -/
  crashed : Bool
  /-- Error, if any, the tick returns to a caller. -/
  propagated : Option DBError
deriving DecidableEq

/-- One tick of `manageChatRooms`, given the clock reading `now` and the
outcome of the schedule read.  `Find`'s error is discarded by the source, so a
failed read leaves `schedules` empty; the loop body only ever calls
`DeleteBroadcast` (guarded by `now.After(endedAt.Add(10*time.Minute))`,
i.e. `endedAt + 10 < now`), never creates a room, never logs, and
`manageChatRooms` has no return value through which an error could
propagate. -/
def manageChatRoomsTick (now : Int)
    (readResult : Except DBError (List ClassSchedule)) : TickEffects :=
  let schedules : List ClassSchedule :=
    match readResult with
    | .ok all => all.filter (scheduleSelected now)
    | .error _ => []
  { deletedRooms :=
      (schedules.filter (fun s => s.endedAt + 10 < now)).map (fun s => roomID s.id)
  , createdRooms := []
  , logs := []
  , crashed := false
  , propagated := none }

/-! ### The tick loop's lifecycle

Source: `initializeControllers` starts the reconciler with
`go manageChatRooms(db, chatManager)` — an unmanaged goroutine — and the loop
is `for { <-ticker.C; ... }`: no `select` on a done channel, no `context`
parameter, no `break` or `return`.  We embed the loop's control skeleton as a
step-indexed run: `stopRequested k` says whether a shutdown/stop signal is
pending at tick `k`, and the run tells whether the loop is still alive after
`n` ticks.  The loop body never consults any stop signal, which the recursion
reflects: the alive-state after `n+1` ticks is the alive-state after `n`
ticks, independent of `stopRequested`. -/

def manageChatRoomsAliveAfter (stopRequested : Nat → Bool) : Nat → Bool
  | 0 => true
  | n + 1 => manageChatRoomsAliveAfter stopRequested n

/-! ### CORS middleware

Source (`CORS()` in the main package): the handler sets the four
`Access-Control-*` headers on the writer, then on method `OPTIONS` calls
`c.AbortWithStatus(204)` and returns, and otherwise calls `c.Next()`. -/

/-- The slice of a Gin request context the CORS middleware reads and writes. -/
structure CorsCtx where
  method : String
  headers : List (String × String)
  status : Option Nat
  aborted : Bool
  nextCalled : Bool
deriving DecidableEq

/-- `c.Writer.Header().Set(k, v)`. -/
def setHeader (c : CorsCtx) (k v : String) : CorsCtx :=
  { c with headers := c.headers ++ [(k, v)] }

/-- `c.AbortWithStatus(code)`: records the status and stops the chain. -/
def abortWithStatus (c : CorsCtx) (code : Nat) : CorsCtx :=
  { c with status := some code, aborted := true }

/-- `c.Next()`: hands the request on to the rest of the chain. -/
def callNext (c : CorsCtx) : CorsCtx :=
  { c with nextCalled := true }

/-- The literal value the source sets for `Access-Control-Allow-Headers`. -/
def corsAllowHeadersValue : String :=
  "Content-Type, Content-Length, Accept-Encoding, X-CSRF-Token, Authorization, accept, origin, Cache-Control, X-Requested-With"

/-- The `CORS()` middleware body, statement by statement from the source. -/
def CORS (c : CorsCtx) : CorsCtx :=
  let c := setHeader c "Access-Control-Allow-Origin" "http://localhost:3000"
  let c := setHeader c "Access-Control-Allow-Credentials" "true"
  let c := setHeader c "Access-Control-Allow-Headers" corsAllowHeadersValue
  let c := setHeader c "Access-Control-Allow-Methods" "POST, PATCH, GET, PUT, DELETE, OPTIONS"
  if c.method = "OPTIONS" then abortWithStatus c 204 else callNext c

/-- The four header pairs `CORS()` writes, in source order. -/
def corsHeaderList : List (String × String) :=
  [ ("Access-Control-Allow-Origin", "http://localhost:3000")
  , ("Access-Control-Allow-Credentials", "true")
  , ("Access-Control-Allow-Headers", corsAllowHeadersValue)
  , ("Access-Control-Allow-Methods", "POST, PATCH, GET, PUT, DELETE, OPTIONS") ]

/-! ### Startup environment checks

Source (`ensureEnvVariables`): `godotenv.Load()` failing is only
`log.Println`-ed; then each of the five required variables is checked in
order and the first empty one hits `log.Fatalf`, which exits the process.
`main` runs `ensureEnvVariables()` before `startServer(router)`. -/

/-- The `requiredVars` slice from `ensureEnvVariables`, in source order. -/
def requiredVars : List String :=
  ["MYSQL_HOST", "MYSQL_USER", "MYSQL_PASSWORD", "MYSQL_DATABASE", "MYSQL_PORT"]

/-- Outcome of the startup check: `fatal v` is `log.Fatalf` on variable `v`
(process exits), `ok logged` is a normal return, `logged` recording whether
the missing-`.env` message was printed. -/
inductive StartupOutcome where
  | fatal (varName : String)
  | ok (loggedDotenvFailure : Bool)
deriving DecidableEq

/-- `ensureEnvVariables`, given whether `godotenv.Load()` succeeded and the
process environment (`os.Getenv`). -/
def ensureEnvVariables (dotenvLoadOk : Bool) (env : String → String) :
    StartupOutcome :=
  match requiredVars.find? (fun v => env v == "") with
  | some v => .fatal v
  | none => .ok (!dotenvLoadOk)

/-- `main` reaches `startServer` (and can serve a request) only if
`ensureEnvVariables` returned instead of exiting. -/
def mainReachesServer (dotenvLoadOk : Bool) (env : String → String) : Bool :=
  match ensureEnvVariables dotenvLoadOk env with
  | .fatal _ => false
  | .ok _ => true

/-! ### Live-class routes and token middleware

Source (`setupLiveClassRoutes`): the `live` group is created, then
`live.Use(middlewares.TokenAuthMiddleware(jwtService))` is applied, then the
four routes are registered — so every route's chain runs the token middleware
before the controller handler. -/

/-- The slice of a Gin context the live-route chain reads and writes. -/
structure GinCtx where
  hasValidToken : Bool
  status : Option Nat
  aborted : Bool
  handlersRun : List String
deriving DecidableEq

/-- Run a Gin handler chain: a handler runs only if no earlier handler
aborted the context. -/
def runChain : List (GinCtx → GinCtx) → GinCtx → GinCtx
  | [], c => c
  | h :: t, c =>
    let c2 := h c
    if c2.aborted then c2 else runChain t c2

/-- Modelled from the spec: `middlewares.TokenAuthMiddleware(jwtService)` —
the middleware body is not part of this repository slice.  The spec requires
every `live/*` route to carry "a validated bearer credential" and maps
`Unauthorized → 401`, so the middleware aborts with 401 when the request has
no valid token and passes the context through unchanged otherwise. -/
def TokenAuthMiddleware (c : GinCtx) : GinCtx :=
  if c.hasValidToken then c else { c with aborted := true, status := some 401 }

/-- The four routes `setupLiveClassRoutes` registers on the `live` group:
HTTP method, path, and controller handler name, in source order. -/
def liveRoutes : List (String × String × String) :=
  [ ("POST", "create-room", "CreateRoomHandler")
  , ("GET", "start-screen-share/:roomID/:userID", "StartScreenShareHandler")
  , ("GET", "stop-screen-share/:roomID/:userID", "StopScreenShareHandler")
  , ("GET", "view-screen-share/:roomID", "ViewScreenShareHandler") ]

/-- A live route's chain: the group middleware first, then the controller
handler (whose body is outside this slice; the model records that it ran). -/
def liveRouteChain (handlerName : String) : List (GinCtx → GinCtx) :=
  [ TokenAuthMiddleware
  , fun c => { c with handlersRun := c.handlersRun ++ [handlerName] } ]

/-- Dispatch one request to a registered live route. -/
def processLiveRoute (r : String × String × String) (c : GinCtx) : GinCtx :=
  runChain (liveRouteChain r.2.2) c

/-! ### DirectMessageStore (modelled from the spec)

The chat controller's `SendDirectMessage`/`GetDirectMessages` bodies are not
part of this repository slice (only their route registrations in
`setupChatRoutes` are), so the store is modelled from the specification:
a `DirectMessage` carries an `unorderedPairKey` that is "a canonical,
order-independent encoding of {userID1, userID2}", `SendDirectMessage`
always succeeds and appends to the pairwise log keyed by
`canonicalPairKey(senderID, receiverID)`, and `GetDirectMessages` returns
that pair's full log in send order. -/

/-- Modelled from the spec: the canonical, order-independent encoding of the
unordered pair `{a, b}`. -/
def canonicalPairKey (a b : Nat) : Nat × Nat :=
  if a ≤ b then (a, b) else (b, a)

/-- One `SendDirectMessage(senderId, receiverId, body)` call. -/
structure SendEvent where
  sender : Nat
  receiver : Nat
  body : String
deriving DecidableEq

/-- The store's state: the pairwise logs, keyed by canonical pair key. -/
def DMStore : Type :=
  Nat × Nat → List SendEvent

/-- The store before any message is sent. -/
def emptyDMStore : DMStore := fun _ => []

/-- Modelled from the spec: `SendDirectMessage` appends the message to the
log keyed by `canonicalPairKey(senderID, receiverID)` and touches no other
log. -/
def SendDirectMessage (store : DMStore) (e : SendEvent) : DMStore :=
  fun k =>
    if k = canonicalPairKey e.sender e.receiver then store k ++ [e] else store k

/-- The store produced by a history of sends, in order. -/
def runDMHistory (history : List SendEvent) : DMStore :=
  history.foldl SendDirectMessage emptyDMStore

/-- Modelled from the spec: `GetDirectMessages(u1, u2)` reads the log at the
pair's canonical key. -/
def GetDirectMessages (store : DMStore) (u1 u2 : Nat) : List SendEvent :=
  store (canonicalPairKey u1 u2)

/-! ### LiveSessionRegistry presenter state machine (modelled from the spec)

`services.LiveClassService` is not part of this repository slice (only its
route wiring is), so the state machine is modelled from the specification:
a `LiveSession` is `{roomID, presenterUserID: optional, viewers}`; states
are `Idle` (no presenter) ⇄ `Presenting(userID)`; `StartScreenShare` fails
with Conflict when a different user is presenting, succeeds idempotently for
the same user, and otherwise transitions to `Presenting(userID)`;
`StopScreenShare` requires the caller to be the current presenter. -/

/-- Typed errors of the live-session registry. -/
inductive LiveErr where
  | conflict
deriving DecidableEq

/-- A live session: at most one presenter is representable, plus viewers. -/
structure LiveSession where
  presenter : Option Nat
  viewers : List Nat
deriving DecidableEq

/-- The lazily created initial session: `Idle`, no viewers. -/
def idleSession : LiveSession :=
  { presenter := none, viewers := [] }

/-- Modelled from the spec: `StartScreenShare(roomID, userID)`. -/
def StartScreenShare (s : LiveSession) (uid : Nat) : Except LiveErr LiveSession :=
  match s.presenter with
  | some p => if p = uid then .ok s else .error .conflict
  | none => .ok { s with presenter := some uid }

/-- Modelled from the spec: `StopScreenShare(roomID, userID)` fails unless
`userID` is the current presenter, else returns the session to `Idle`. -/
def StopScreenShare (s : LiveSession) (uid : Nat) : Except LiveErr LiveSession :=
  if s.presenter = some uid then .ok { s with presenter := none }
  else .error .conflict

/-- Number of presenters a session state holds. -/
def presenterCount (s : LiveSession) : Nat :=
  match s.presenter with
  | none => 0
  | some _ => 1

/-! ## Claims -/

/-- C1: the claim says a schedule with `endedAt = now − 11 min` makes the next
tick delete `class_<id>`, while `endedAt = now − 9 min` does not.  Evaluating
the embedded tick at `now = 0`: the schedule that ended 11 minutes ago (id 1)
is excluded by the tick's own WHERE clause (which keeps only
`ended_at ∈ [now − 10, now]`), so the tick deletes nothing — the deletion half
of the claim fails on the code; the schedule that ended 9 minutes ago (id 2)
is selected but fails the in-loop guard `endedAt + 10 < now`, so it is
(as the claim says) not deleted either. -/
theorem grace_window_tick_deletes_nothing :
    (manageChatRoomsTick 0 (.ok [⟨1, -60, -11⟩])).deletedRooms = [] ∧
    (manageChatRoomsTick 0 (.ok [⟨2, -55, -9⟩])).deletedRooms = [] := by
  decide

/-- C2: the claim says a schedule with `startedAt = now + 4 min` makes the
tick call `CreateRoom` for `class_<id>`.  The schedule is indeed selected by
the tick's WHERE clause (lead-window branch), but the loop body contains no
room-creation call, so the tick creates nothing — neither for
`startedAt = now + 4` nor (as the claim correctly says) for
`startedAt = now + 6`. -/
theorem lead_window_tick_creates_nothing :
    scheduleSelected 0 ⟨1, 4, 94⟩ = true ∧
    (manageChatRoomsTick 0 (.ok [⟨1, 4, 94⟩])).createdRooms = [] ∧
    (manageChatRoomsTick 0 (.ok [⟨2, 6, 96⟩])).createdRooms = [] := by
  decide

/-- C3 counterexample: with a stop request pending from tick 0 on (process
shutdown), the reconciler loop is still alive five ticks later — the
`for { <-ticker.C; … }` body consults no stop signal, so shutdown does not
cancel it. -/
theorem tick_loop_alive_despite_stop :
    manageChatRoomsAliveAfter (fun _ => true) 5 = true := by
  rfl

/-- C3 amended: the reconciler loop is started as a fire-and-forget goroutine
(`go manageChatRooms(db, chatManager)`) and observes no cooperative stop
signal: whatever shutdown requests are pending, the loop is still alive after
any number of ticks, and ends only when the process itself exits. -/
theorem tick_loop_never_observes_stop (stopRequested : Nat → Bool) (n : Nat) :
    manageChatRoomsAliveAfter stopRequested n = true := by
  induction n with
  | zero => rfl
  | succ n ih => exact ih

/-- C4: the room identifier the reconciler computes for schedule id `n` is
`"class_"` followed by the decimal rendering of `n`, so the mapping from
schedule ids to room identifiers is deterministic (it is a function) and
injective: equal room identifiers force equal schedule ids. -/
theorem roomID_class_decimal_injective (a b : Nat) (h : roomID a = roomID b) :
    a = b := by
  have hd : ("class_".data ++ (decRepr a).data : List Char) =
      "class_".data ++ (decRepr b).data := by
    have h2 := congrArg String.data h
    simpa [roomID, String.data_append] using h2
  have hd2 : (decRepr a).data = (decRepr b).data := List.append_cancel_left hd
  calc a = decParse (decRepr a).data := (decParse_decRepr a).symm
    _ = decParse (decRepr b).data := by rw [hd2]
    _ = b := decParse_decRepr b

/-- C4 witness: the injectivity theorem applied at schedule id 305, whose
room identifier evaluates to the literal `"class_305"`. -/
theorem roomID_class_decimal_injective_witness :
    (305 : Nat) = 305 ∧ roomID 305 = "class_305" :=
  ⟨roomID_class_decimal_injective 305 305 rfl, by
    unfold roomID decRepr decChars
    norm_num [Nat.digits_def']
    rfl⟩

/-- C5: every route registered on the `live` group runs the token middleware
before its controller handler: an unauthenticated request is answered 401 and
aborted without the handler ever running, and an authenticated request
reaches the handler. -/
theorem live_routes_require_valid_token (r : String × String × String)
    (hr : r ∈ liveRoutes) (c : GinCtx) :
    (c.hasValidToken = false →
      (processLiveRoute r c).status = some 401 ∧
      (processLiveRoute r c).aborted = true ∧
      (processLiveRoute r c).handlersRun = c.handlersRun) ∧
    (c.hasValidToken = true → c.aborted = false →
      (processLiveRoute r c).handlersRun = c.handlersRun ++ [r.2.2]) := by
  constructor
  · intro htok
    simp [processLiveRoute, liveRouteChain, runChain, TokenAuthMiddleware, htok]
  · intro htok hab
    simp [processLiveRoute, liveRouteChain, runChain, TokenAuthMiddleware,
      htok, hab]

/-- C5 witness: an unauthenticated POST to `live/create-room` is answered 401,
aborted, with no handler run. -/
theorem live_routes_require_valid_token_witness :
    (processLiveRoute ("POST", "create-room", "CreateRoomHandler")
        ⟨false, none, false, []⟩).status = some 401 ∧
    (processLiveRoute ("POST", "create-room", "CreateRoomHandler")
        ⟨false, none, false, []⟩).aborted = true ∧
    (processLiveRoute ("POST", "create-room", "CreateRoomHandler")
        ⟨false, none, false, []⟩).handlersRun = [] :=
  (live_routes_require_valid_token ("POST", "create-room", "CreateRoomHandler")
    (by decide) ⟨false, none, false, []⟩).1 rfl

/-- The canonical pair key does not depend on argument order. -/
theorem canonicalPairKey_comm (a b : Nat) :
    canonicalPairKey a b = canonicalPairKey b a := by
  unfold canonicalPairKey
  rcases Nat.le_total a b with h | h
  · by_cases h2 : b ≤ a
    · have hab : a = b := Nat.le_antisymm h h2
      subst hab; simp
    · simp [h, h2]
  · by_cases h2 : a ≤ b
    · have hab : a = b := Nat.le_antisymm h2 h
      subst hab; simp
    · simp [h, h2]

/-- C6: for any history of `SendDirectMessage` calls, reading the
conversation of users `a` and `b` gives the same sequence in either argument
order — both reads address the same canonically keyed log. -/
theorem getDirectMessages_symmetric (history : List SendEvent) (a b : Nat) :
    GetDirectMessages (runDMHistory history) a b =
      GetDirectMessages (runDMHistory history) b a := by
  unfold GetDirectMessages
  rw [canonicalPairKey_comm]

/-- C7: a live session holds at most one presenter, and `StartScreenShare`
fails with Conflict when a different user is presenting, succeeds with no
state change when the same user retries, and makes `uid` the presenter when
the session is idle. -/
theorem startScreenShare_exclusion (s : LiveSession) (uid other : Nat) :
    presenterCount s ≤ 1 ∧
    (s.presenter = some other → other ≠ uid →
      StartScreenShare s uid = .error .conflict) ∧
    (s.presenter = some uid → StartScreenShare s uid = .ok s) ∧
    (s.presenter = none →
      StartScreenShare s uid = .ok { s with presenter := some uid }) := by
  refine ⟨?_, ?_, ?_, ?_⟩
  · unfold presenterCount
    cases s.presenter <;> simp
  · intro h hne
    simp [StartScreenShare, h, hne]
  · intro h
    simp [StartScreenShare, h]
  · intro h
    simp [StartScreenShare, h]

/-- C7 witness: with user 1 presenting, user 2 is refused with Conflict and
user 1's retry is a no-op; from the idle session, user 2 becomes presenter. -/
theorem startScreenShare_exclusion_witness :
    StartScreenShare ⟨some 1, []⟩ 2 = .error .conflict ∧
    StartScreenShare ⟨some 1, []⟩ 1 = .ok ⟨some 1, []⟩ ∧
    StartScreenShare ⟨none, []⟩ 2 = .ok ⟨some 2, []⟩ :=
  ⟨(startScreenShare_exclusion ⟨some 1, []⟩ 2 1).2.1 rfl (by decide),
   (startScreenShare_exclusion ⟨some 1, []⟩ 1 1).2.2.1 rfl,
   (startScreenShare_exclusion ⟨none, []⟩ 2 1).2.2.2 rfl⟩

/-- C8 counterexample: a tick whose schedule read fails logs nothing — the
source discards `Find`'s error and `manageChatRooms` contains no logging
call, so the failure is swallowed silently, not logged as the claim says. -/
theorem tick_read_failure_logs_nothing :
    (manageChatRoomsTick 0 (.error .readFailed)).logs = [] := by
  decide

/-- C8 amended: a failure reading schedules is silently discarded rather than
logged: every tick — whatever the read returned — crashes nothing, propagates
no error to any caller, and logs nothing, and a failed read behaves exactly
like an empty result, so the next tick simply retries from a fresh read. -/
theorem tick_failure_silent_and_harmless (now : Int)
    (res : Except DBError (List ClassSchedule)) (e : DBError) :
    (manageChatRoomsTick now res).crashed = false ∧
    (manageChatRoomsTick now res).propagated = none ∧
    (manageChatRoomsTick now res).logs = [] ∧
    manageChatRoomsTick now (.error e) = manageChatRoomsTick now (.ok []) := by
  cases res <;> simp [manageChatRoomsTick]

/-- C9: the CORS middleware answers an OPTIONS request with status 204 and
aborts the chain (the handler never runs), and for every other method appends
exactly the four `Access-Control-*` headers and passes the request through
otherwise unchanged. -/
theorem cors_options_aborts_others_pass (c : CorsCtx) :
    (c.method = "OPTIONS" →
      CORS c = { c with headers := c.headers ++ corsHeaderList,
                        status := some 204, aborted := true }) ∧
    (c.method ≠ "OPTIONS" →
      CORS c = { c with headers := c.headers ++ corsHeaderList,
                        nextCalled := true }) := by
  constructor <;> intro h <;>
    simp [CORS, setHeader, abortWithStatus, callNext, corsHeaderList, h]

/-- C9 witness: a concrete OPTIONS request is answered 204 and aborted with
the handler not called, and a concrete GET request passes through with the
four headers set. -/
theorem cors_options_aborts_others_pass_witness :
    CORS ⟨"OPTIONS", [], none, false, false⟩ =
      ⟨"OPTIONS", corsHeaderList, some 204, true, false⟩ ∧
    CORS ⟨"GET", [], none, false, false⟩ =
      ⟨"GET", corsHeaderList, none, false, true⟩ :=
  ⟨(cors_options_aborts_others_pass ⟨"OPTIONS", [], none, false, false⟩).1 rfl,
   (cors_options_aborts_others_pass ⟨"GET", [], none, false, false⟩).2
     (by decide)⟩

/-- C10: if any of the five required MySQL variables is unset or empty, the
startup check hits `log.Fatalf` and `main` never reaches `startServer`
(whether or not `.env` loaded); with all five set, a failed `.env` load alone
leaves a logged message, the check returns normally, and the server starts. -/
theorem ensureEnv_gate (env : String → String) :
    ((∃ v ∈ requiredVars, env v = "") →
      ∀ dotenvLoadOk, mainReachesServer dotenvLoadOk env = false) ∧
    ((∀ v ∈ requiredVars, env v ≠ "") →
      ensureEnvVariables false env = .ok true ∧
      mainReachesServer false env = true) := by
  constructor
  · rintro ⟨v, hv, hve⟩ dotenvLoadOk
    have hsome : (requiredVars.find? (fun v => env v == "")).isSome := by
      rw [List.find?_isSome]
      exact ⟨v, hv, by simpa using hve⟩
    obtain ⟨w, hw⟩ := Option.isSome_iff_exists.mp hsome
    simp [mainReachesServer, ensureEnvVariables, hw]
  · intro hall
    have hnone : requiredVars.find? (fun v => env v == "") = none := by
      rw [List.find?_eq_none]
      intro v hv
      simpa using hall v hv
    simp [mainReachesServer, ensureEnvVariables, hnone]

/-- C10 witness: with `MYSQL_PASSWORD` empty the server is never reached even
though `.env` loaded; with all five variables set and `.env` missing, the
check returns normally having logged the message and the server starts. -/
theorem ensureEnv_gate_witness :
    mainReachesServer true
      (fun v => if v = "MYSQL_PASSWORD" then "" else "set") = false ∧
    ensureEnvVariables false (fun _ => "set") = .ok true ∧
    mainReachesServer false (fun _ => "set") = true :=
  ⟨(ensureEnv_gate (fun v => if v = "MYSQL_PASSWORD" then "" else "set")).1
      ⟨"MYSQL_PASSWORD", by decide, by decide⟩ true,
   ((ensureEnv_gate (fun _ => "set")).2 (fun v _ => by decide)).1,
   ((ensureEnv_gate (fun _ => "set")).2 (fun v _ => by decide)).2⟩

end Minori
